import Mathlib

/-!
Verification of the humsana-daemon decision core: a shallow embedding of the
signal analyzer (`humsana/analyzer.py`), the activity tracker
(`humsana/activity_tracker.py`), the audit logger (`humsana/audit.py`),
the configuration (`humsana/config.py`) and the interlock engine
(`humsana/interlock.py`), together with theorems settling the spec claims.

Modelling conventions:
- Python floats are modelled as exact rationals (`ℚ`); all arithmetic in the
  decision core is addition, multiplication, division, `min`/`max` and
  comparisons, which agree with the exact semantics on the values involved.
- Python `int(x)` (truncation toward zero) is `pyInt`; Python `round(x, n)`
  (round half to even) is `pyRound`.
- Timestamps (Python `datetime`) are rationals counting seconds; `datetime`
  subtraction `.total_seconds()` becomes plain subtraction.
- File and subprocess side effects are made explicit: persisted state is a
  `DaemonState` record threaded through the functions that the source
  mutates, and the result of `subprocess.run` is an explicit `ShellResult`
  input (the embedding records whether the shell would have been invoked).
-/

set_option maxRecDepth 8000

namespace Humsana

/-- Python `int(x)` on a rational: truncation toward zero. -/
def pyInt (q : ℚ) : ℤ :=
  if 0 ≤ q then ⌊q⌋ else -⌊-q⌋

/-- Nearest integer with ties to even, the idealised semantics of Python
`round` on the analyzer's exact rational values. -/
def roundHalfEven (q : ℚ) : ℤ :=
  let f := ⌊q⌋
  let r := q - f
  if r < 1 / 2 then f
  else if 1 / 2 < r then f + 1
  else if f % 2 = 0 then f else f + 1

/-- Python `round(q, digits)` on a rational. -/
def pyRound (q : ℚ) (digits : ℕ) : ℚ :=
  (roundHalfEven (q * 10 ^ digits) : ℚ) / 10 ^ digits

/-- Does `needle` occur at the head of `hay`? (helper for Python `in`). -/
def listStartsWith : List Char → List Char → Bool
  | [], _ => true
  | _ :: _, [] => false
  | a :: as, b :: bs => a == b && listStartsWith as bs

/-- Does `needle` occur as a contiguous run inside `hay`?
This is Python's `needle in hay` on strings. -/
def listContainsSub (needle : List Char) : List Char → Bool
  | [] => needle.isEmpty
  | c :: rest => listStartsWith needle (c :: rest) || listContainsSub needle rest

/-- Python `needle in hay` for strings. -/
def strContains (hay needle : String) : Bool :=
  listContainsSub needle.toList hay.toList

/-- Python `s.lower()` (character-wise lowercasing, as `str.lower` acts on
the ASCII command/pattern text handled by the interlock). -/
def pyLower (s : String) : String :=
  (s.toList.map Char.toLower).asString

/-! ## Signal analyzer (`humsana/analyzer.py`) -/

/-- `UserState` enumeration from `analyzer.py`. -/
inductive UserState where
  | RELAXED
  | WORKING
  | FOCUSED
  | STRESSED
  | DEBUGGING
  | FATIGUED
  | ADRENALINE
deriving DecidableEq, Repr

/-- `SignalSnapshot` from `collector.py`: one privacy-safe timing event.
The field `backspace_ratio` of the Python result is called `backspaceRate`
here (and `is_backspace` is `isBackspace`) for lexical reasons only. -/
structure SignalSnapshot where
  timestamp : ℚ
  interval_ms : ℚ
  isBackspace : Bool
  isModifier : Bool
deriving DecidableEq, Inhabited

/-- `AnalysisResult` from `analyzer.py`. -/
structure AnalysisResult where
  stress_level : ℚ
  focus_level : ℚ
  cognitive_load : ℚ
  state : UserState
  confidence : ℚ
  response_style : String
  avoid_clarifying_questions : Bool
  interruptible : Bool
  typing_wpm : ℚ
  backspaceRate : ℚ
  rhythm_variance : ℚ
  idle_seconds : ℚ
deriving DecidableEq

/-- `SignalAnalyzer._calculate_wpm`. -/
def calcWpm (signals : List SignalSnapshot) : ℚ :=
  if signals.length < 2 then 0
  else
    let time_span := (signals.getLastD default).timestamp - signals.headI.timestamp
    if time_span ≤ 0 then 0
    else pyRound ((signals.length : ℚ) / time_span / 5 * 60) 1

/-- `SignalAnalyzer._calculate_backspace_ratio`. -/
def calcBackspaceRate (signals : List SignalSnapshot) : ℚ :=
  if signals.isEmpty then 0
  else ((signals.filter (fun s => s.isBackspace)).length : ℚ) / (signals.length : ℚ)

/-- Sample variance, the exact value computed by Python `statistics.variance`. -/
def sampleVariance (xs : List ℚ) : ℚ :=
  let n : ℚ := xs.length
  let m := xs.sum / n
  ((xs.map (fun x => (x - m) ^ 2)).sum) / (n - 1)

/-- `SignalAnalyzer._calculate_rhythm_variance`. -/
def calcRhythmVariance (signals : List SignalSnapshot) : ℚ :=
  let intervals := (signals.map (fun s => s.interval_ms)).filter
    (fun i => decide (0 < i ∧ i < 2000))
  if intervals.length < 2 then 0 else sampleVariance intervals

/-- `SignalAnalyzer._calculate_stress`: additive point scoring, clamped to 1. -/
def calcStress (wpm backspaceRate variance : ℚ) : ℚ :=
  let s0 : ℚ := 0
  let s1 := s0 + (if wpm > 80 then (0.35 : ℚ) else if wpm > 60 then 0.15 else 0)
  let s2 := s1 + (if backspaceRate > 0.15 then (0.35 : ℚ)
                  else if backspaceRate > 0.10 then 0.15 else 0)
  let s3 := s2 + (if variance > 10000 then (0.30 : ℚ)
                  else if variance > 5000 then 0.15 else 0)
  min s3 1

/-- `SignalAnalyzer._calculate_focus`. -/
def calcFocus (signals : List SignalSnapshot) (variance idle_seconds : ℚ) : ℚ :=
  let f0 : ℚ := 0.5
  let f1 := if 50 ≤ signals.length ∧
               (signals.getLastD default).timestamp - signals.headI.timestamp > 30
            then f0 + 0.25 else f0
  let f2 := f1 + (if variance < 3000 then (0.25 : ℚ)
                  else if variance < 5000 then 0.10 else 0)
  let f3 := f2 - (if idle_seconds > 60 then (0.30 : ℚ)
                  else if idle_seconds > 30 then 0.15
                  else if idle_seconds > 5 then 0.05 else 0)
  max 0 (min f3 1)

/-- `SignalAnalyzer._calculate_cognitive_load`. -/
def calcCognitiveLoad (wpm backspaceRate variance : ℚ) : ℚ :=
  let l0 : ℚ := 0.3
  let l1 := if wpm > 70 ∧ backspaceRate > 0.12 then l0 + 0.35 else l0
  let l2 := if variance > 8000 then l1 + 0.25 else l1
  let l3 := if wpm > 90 ∧ backspaceRate > 0.18 then l2 + 0.20 else l2
  min l3 1

/-- `SignalAnalyzer._determine_state`: ordered decision list, first match wins. -/
def determineState (stress focus cognitive_load wpm backspaceRate idle_seconds : ℚ) :
    UserState :=
  if idle_seconds > 120 then .RELAXED
  else if wpm > 90 ∧ backspaceRate < 0.05 ∧ focus > 0.7 then .ADRENALINE
  else if cognitive_load > 0.8 ∧ backspaceRate > 0.15 then .FATIGUED
  else if stress > 0.7 ∧ cognitive_load > 0.6 then .DEBUGGING
  else if stress > 0.6 then .STRESSED
  else if focus > 0.7 ∧ stress < 0.4 then .FOCUSED
  else if focus > 0.4 then .WORKING
  else .RELAXED

/-- `SignalAnalyzer._generate_recommendations`: pure function of the state
(the Python function also receives stress and focus but never reads them). -/
def generateRecommendations (state : UserState) : String × Bool × Bool :=
  match state with
  | .ADRENALINE => ("concise_command_mode", true, false)
  | .FATIGUED => ("protective", true, false)
  | .DEBUGGING => ("concise", true, false)
  | .STRESSED => ("concise", true, false)
  | .FOCUSED => ("detailed", false, false)
  | .WORKING => ("detailed", false, true)
  | .RELAXED => ("friendly", false, true)

/-- `SignalAnalyzer._create_default_result`. -/
def createDefaultResult (confidence idle_seconds : ℚ) : AnalysisResult :=
  { stress_level := 0
    focus_level := 0.5
    cognitive_load := 0.3
    state := .RELAXED
    confidence := confidence
    response_style := "friendly"
    avoid_clarifying_questions := false
    interruptible := true
    typing_wpm := 0
    backspaceRate := 0
    rhythm_variance := 0
    idle_seconds := idle_seconds }

/-- `SignalAnalyzer.analyze`: the returned `AnalysisResult` (the append to the
bounded in-memory history happens after the early return and is modelled
separately from the returned value). -/
def analyze (signals : List SignalSnapshot) (idle_seconds : ℚ) : AnalysisResult :=
  if signals.length < 10 then createDefaultResult 0.1 idle_seconds
  else
    let typing_wpm := calcWpm signals
    let backspaceRate := calcBackspaceRate signals
    let rhythm_variance := calcRhythmVariance signals
    let stress_level := calcStress typing_wpm backspaceRate rhythm_variance
    let focus_level := calcFocus signals rhythm_variance idle_seconds
    let cognitive_load := calcCognitiveLoad typing_wpm backspaceRate rhythm_variance
    let state := determineState stress_level focus_level cognitive_load
      typing_wpm backspaceRate idle_seconds
    let confidence := min ((signals.length : ℚ) / 100) 1
    let recs := generateRecommendations state
    { stress_level := stress_level
      focus_level := focus_level
      cognitive_load := cognitive_load
      state := state
      confidence := confidence
      response_style := recs.1
      avoid_clarifying_questions := recs.2.1
      interruptible := recs.2.2
      typing_wpm := typing_wpm
      backspaceRate := backspaceRate
      rhythm_variance := rhythm_variance
      idle_seconds := idle_seconds }

/-! ## Activity tracker (`humsana/activity_tracker.py`)

Heartbeats are modelled by their timestamps in seconds; the `source` tag of a
heartbeat is never read by the uptime or fatigue computation. -/

/-- Python `sorted` on the heartbeat timestamps (`get_cognitive_uptime_hours`
sorts the heartbeats by timestamp before scanning). -/
def sortTimes (l : List ℚ) : List ℚ :=
  l.insertionSort (· ≤ ·)

/-- The scan in `get_cognitive_uptime_hours`, phrased on the reversed sorted
list (most recent first): `for i in range(len(sorted_hbs)-1, 0, -1)` walking
pairs of consecutive heartbeats from the most recent end, returning the later
heartbeat of the first pair whose gap is at least `BREAK_THRESHOLD_MINUTES`. -/
def lastBreakRev : List ℚ → Option ℚ
  | a :: b :: rest =>
      if (a - b) / 60 ≥ 60 then some a else lastBreakRev (b :: rest)
  | _ => none

/-- `ActivityTracker.get_cognitive_uptime_hours`. -/
def getCognitiveUptimeHours (heartbeats : List ℚ) (now : ℚ) : ℚ :=
  if heartbeats.isEmpty then 0
  else
    let sorted_hbs := sortTimes heartbeats
    let last_break_time :=
      match lastBreakRev sorted_hbs.reverse with
      | some t => t
      | none => sorted_hbs.headI
    max 0 ((now - last_break_time) / 3600)

/-- The fatigue formula of `ActivityTracker.get_fatigue_level`, as a function
of the already-computed uptime. -/
def fatigueFromUptime (uptime current_stress : ℚ) : ℤ :=
  let base_fatigue := min 60 (uptime / 12 * 60)
  let stress_fatigue := current_stress * 40
  let total := pyInt (base_fatigue + stress_fatigue)
  min 100 (max 0 total)

/-- `ActivityTracker.get_fatigue_level`. -/
def getFatigueLevel (heartbeats : List ℚ) (now current_stress : ℚ) : ℤ :=
  fatigueFromUptime (getCognitiveUptimeHours heartbeats now) current_stress

/-- The category/recommendation ladder of `ActivityTracker.get_fatigue_status`. -/
def fatigueCategory (fatigue : ℤ) : String × String :=
  if fatigue < 30 then
    ("low", "You are fresh. Good time for complex work.")
  else if fatigue < 60 then
    ("moderate", "You have been working a while. Consider a break in the next hour.")
  else if fatigue < 85 then
    ("high", "High fatigue detected. Take a break before making important decisions.")
  else
    ("critical", "Critical fatigue. You should stop working and rest.")

/-- The dictionary returned by `ActivityTracker.get_fatigue_status`. -/
structure FatigueStatus where
  fatigue_level : ℤ
  fatigue_category : String
  uptime_hours : ℚ
  recommendation : String
  break_threshold_minutes : ℚ
deriving DecidableEq

/-- `ActivityTracker.get_fatigue_status`. -/
def getFatigueStatus (heartbeats : List ℚ) (now current_stress : ℚ) : FatigueStatus :=
  let fatigue := getFatigueLevel heartbeats now current_stress
  let uptime := getCognitiveUptimeHours heartbeats now
  let cat := fatigueCategory fatigue
  { fatigue_level := fatigue
    fatigue_category := cat.1
    uptime_hours := pyRound uptime 2
    recommendation := cat.2
    break_threshold_minutes := 60 }

/-! ## Configuration (`humsana/config.py`)

`verify_license` performs network and file system access and is out of scope
(an external collaborator per the spec); its boolean outcome — whether the
user holds a valid Pro license — is carried as the `is_pro` field of the
configuration, mirroring the `HumsanaConfig.is_pro` property. -/

/-- `DEFAULT_DANGEROUS_COMMANDS` from `config.py`. -/
def DEFAULT_DANGEROUS_COMMANDS : List String :=
  [ "rm -rf", "DROP DATABASE", "DROP TABLE", "DELETE FROM",
    "git push --force", "git push -f", "kubectl delete", "terraform destroy",
    "docker system prune", "sudo rm", "dd if=", "mkfs", "> /dev/sd" ]

/-- The fields of `HumsanaConfig` that the decision core reads, with their
`config.py` defaults; `is_pro` is the (abstracted) license verification
outcome. -/
structure HumsanaConfig where
  execution_mode : String := "dry_run"
  fatigue_threshold : ℤ := 70
  dangerous_commands : List String := DEFAULT_DANGEROUS_COMMANDS
  deny_patterns : List String := []
  allow_patterns : List String := []
  webhook_url : Option String := none
  is_pro : Bool := false
deriving DecidableEq

/-- `HumsanaConfig.effective_execution_mode`: the free tier is always
`dry_run`; Pro can use `live`. -/
def effectiveExecutionMode (cfg : HumsanaConfig) : String :=
  if cfg.execution_mode = "live" ∧ cfg.is_pro = false then "dry_run"
  else cfg.execution_mode

/-! ## Audit logger (`humsana/audit.py`) -/

/-- `AuditLogger.MAX_ENTRIES`. -/
def MAX_ENTRIES : ℕ := 1000

/-- `AuditEntry` from `audit.py` (the ISO timestamp is modelled as the
rational clock value it renders). -/
structure AuditEntry where
  event : String
  timestamp : ℚ
  command : String
  fatigue_level : ℤ
  fatigue_category : String
  uptime_hours : ℚ
  override_reason : Option String
  user : String
  outcome : String
  mode : String
deriving DecidableEq

/-- `AuditLogger._save_entries`: trim to the most recent `MAX_ENTRIES`
(`self.entries = self.entries[-self.MAX_ENTRIES:]`) before writing. -/
def auditSave (entries : List AuditEntry) : List AuditEntry :=
  if entries.length > MAX_ENTRIES then entries.drop (entries.length - MAX_ENTRIES)
  else entries

/-- `AuditLogger.log_event` restricted to its effect on the persisted entry
list: append the new entry, then save (which trims). The webhook POST is
fire-and-forget and out of scope. -/
def logEvent (entries : List AuditEntry) (entry : AuditEntry) : List AuditEntry :=
  auditSave (entries ++ [entry])

/-- Construction of the `AuditEntry` inside `AuditLogger.log_event` (the
`user` argument stands for `os.environ.get('USER', 'unknown')`). -/
def mkAuditEntry (event : String) (timestamp : ℚ) (command : String)
    (fatigue_level : ℤ) (fatigue_category : String) (uptime_hours : ℚ)
    (outcome mode : String) (override_reason : Option String) (user : String) :
    AuditEntry :=
  { event := event
    timestamp := timestamp
    command := command
    fatigue_level := fatigue_level
    fatigue_category := fatigue_category
    uptime_hours := uptime_hours
    override_reason := override_reason
    user := user
    outcome := outcome
    mode := mode }

/-! ## Interlock engine (`humsana/interlock.py`) -/

/-- `InterlockResult` from `interlock.py`. -/
structure InterlockResult where
  allowed : Bool
  status : String
  message : String
  fatigue_level : ℤ
  fatigue_category : String
  uptime_hours : ℚ
  command : String
  mode : String
  override_instruction : Option String := none
deriving DecidableEq

/-- The persisted and in-memory state the interlock can observe or mutate:
the tracker's heartbeat log, the audit entry list, and the analyzer's
in-memory history. -/
structure DaemonState where
  heartbeats : List ℚ
  auditEntries : List AuditEntry
  history : List AnalysisResult
deriving DecidableEq

/-- `HumsanaInterlock._matches_patterns` (and the identical per-list loop of
`_is_dangerous_command`): case-insensitive substring match, first match
short-circuits. -/
def matchesAnyPattern (command : String) (patterns : List String) : Bool :=
  patterns.any (fun p => strContains (pyLower command) (pyLower p))

/-- `HumsanaInterlock._is_dangerous_command`: matches the built-in dangerous
commands, then the user deny patterns. -/
def isDangerousCommand (cfg : HumsanaConfig) (command : String) : Bool :=
  matchesAnyPattern command cfg.dangerous_commands ||
    matchesAnyPattern command cfg.deny_patterns

/-- `HumsanaInterlock._truncate`. -/
def truncateStr (s : String) (max_len : ℕ := 50) : String :=
  if s.length ≤ max_len then s
  else (s.toList.take (max_len - 3)).asString ++ "..."

/-- The literal override instruction returned by a blocked `check_command`. -/
def overrideInstructionText : String :=
  "To proceed anyway, reply with exactly:\nOVERRIDE SAFETY PROTOCOL: [your reason]\n\nExample: OVERRIDE SAFETY PROTOCOL: P0 production outage"

/-- The blocked message of `check_command` (numeric interpolation rendered
with `toString`; the Python side formats the same quantities). -/
def blockedCheckMessage (fatigue_level : ℤ) (uptime_hours : ℚ) (command : String) :
    String :=
  "⛔ INTERLOCK ENGAGED: High fatigue detected (" ++ toString fatigue_level ++
    "%). You have been active for " ++ toString uptime_hours ++
    " hours. Command '" ++ truncateStr command ++ "' is blocked for safety."

/-- The allowed message of `check_command`. -/
def allowedCheckMessage (dangerous : Bool) : String :=
  "✅ Safety check passed. Command is " ++
    (if dangerous then "allowed (low fatigue)" else "safe") ++ "."

/-- `HumsanaInterlock.check_command`, with the state it reads threaded
explicitly: it consults the tracker's fatigue status (computed from the
heartbeat log) and the configuration, and returns the decision together with
the (unchanged) daemon state. `current_stress` stands for the value of
`_get_current_stress()` (a read-only database query). -/
def checkCommandS (cfg : HumsanaConfig) (s : DaemonState)
    (now current_stress : ℚ) (command : String) :
    InterlockResult × DaemonState :=
  let fs := getFatigueStatus s.heartbeats now current_stress
  let dangerous := isDangerousCommand cfg command
  let should_block := dangerous && decide (fs.fatigue_level > cfg.fatigue_threshold)
  if should_block then
    ({ allowed := false
       status := "blocked"
       message := blockedCheckMessage fs.fatigue_level fs.uptime_hours command
       fatigue_level := fs.fatigue_level
       fatigue_category := fs.fatigue_category
       uptime_hours := fs.uptime_hours
       command := command
       mode := cfg.execution_mode
       override_instruction := some overrideInstructionText }, s)
  else
    ({ allowed := true
       status := "allowed"
       message := allowedCheckMessage dangerous
       fatigue_level := fs.fatigue_level
       fatigue_category := fs.fatigue_category
       uptime_hours := fs.uptime_hours
       command := command
       mode := cfg.execution_mode
       override_instruction := none }, s)

/-- The outcome of the `subprocess.run` call in live execution: an explicit
input of the embedding (normal completion, `subprocess.TimeoutExpired`, or
any other exception). -/
inductive ShellResult where
  | completed (exit_code : ℤ) (stdout stderr : String)
  | timedOut
  | failed (errText : String)
deriving DecidableEq

/-- The result dictionaries built by `execute_command` and
`_execute_or_simulate` (absent keys are `none` / `false`). -/
structure ExecResult where
  status : String
  error : Option String := none
  message : Option String := none
  command : Option String := none
  exit_code : Option ℤ := none
  stdout : Option String := none
  stderr : Option String := none
  fatigue : Option (ℤ × String × ℚ) := none
  mode : String
  override_required : Bool := false
  override_reason : Option String := none
deriving DecidableEq

/-- The dry-run message of `_execute_or_simulate`. -/
def dryRunMessage (command : String) : String :=
  "✅ [DRY RUN] Safety check passed.\n\nCommand: `" ++ command ++
    "`\n\nThis command WOULD have been executed.\n(Execution skipped: dry_run mode active)\n\nTo enable real execution, set `execution_mode: live` in ~/.humsana/config.yaml"

/-- The blocked message of `execute_command` (static skeleton of the
formatted text). -/
def blockedExecMessage (fatigue_level : ℤ) (fatigue_category : String)
    (uptime_hours : ℚ) (command : String) : String :=
  "High fatigue detected (" ++ toString fatigue_level ++ "%, " ++
    fatigue_category ++ "). You have been active for " ++ toString uptime_hours ++
    " hours.\n\nCommand `" ++ truncateStr command ++
    "` is high-risk and has been blocked.\n\nTo proceed, you MUST reply with:\n**OVERRIDE SAFETY PROTOCOL: [reason]**\n\nExample: `OVERRIDE SAFETY PROTOCOL: P0 production incident`"

/-- `HumsanaInterlock._execute_or_simulate`. The returned boolean records
whether `subprocess.run` is reached (the underlying shell is invoked). Note
the source reads `self.config.execution_mode` here, not
`effective_execution_mode`. -/
def executeOrSimulate (cfg : HumsanaConfig) (command : String)
    (fatigue_level : ℤ) (fatigue_category : String) (uptime_hours : ℚ)
    (override_reason : Option String) (shell : ShellResult) :
    ExecResult × Bool :=
  if cfg.execution_mode = "dry_run" then
    ({ status := "SIMULATED"
       message := some (dryRunMessage command)
       command := some command
       fatigue := some (fatigue_level, fatigue_category, uptime_hours)
       mode := "dry_run"
       override_reason := override_reason }, false)
  else
    if cfg.allow_patterns ≠ [] ∧ matchesAnyPattern command cfg.allow_patterns = false then
      ({ status := "BLOCKED"
         error := some "Command not in allowlist"
         message := some ("Command '" ++ truncateStr command ++
           "' is not in the allow_patterns list.")
         mode := "live" }, false)
    else
      match shell with
      | .completed exit_code stdout stderr =>
          ({ status := "EXECUTED"
             exit_code := some exit_code
             stdout := some stdout
             stderr := some stderr
             command := some command
             fatigue := some (fatigue_level, fatigue_category, uptime_hours)
             mode := "live"
             override_reason := override_reason }, true)
      | .timedOut =>
          ({ status := "TIMEOUT"
             error := some "Command timed out after 30 seconds"
             command := some command
             mode := "live" }, true)
      | .failed errText =>
          ({ status := "ERROR"
             error := some errText
             command := some command
             mode := "live" }, true)

/-- `HumsanaInterlock.execute_command`, with the state it mutates threaded
explicitly. Inputs: the configuration, the daemon state, the clock, the
current stress (`_get_current_stress()`), the command, the optional override
reason, the shell outcome oracle, and the `USER` environment value. Returns
the result dictionary, whether the shell was invoked, and the new state. -/
def executeCommandS (cfg : HumsanaConfig) (s : DaemonState)
    (now current_stress : ℚ) (command : String)
    (override_reason : Option String) (shell : ShellResult) (user : String) :
    (ExecResult × Bool) × DaemonState :=
  let fs := getFatigueStatus s.heartbeats now current_stress
  let dangerous := isDangerousCommand cfg command
  let should_block := dangerous && decide (fs.fatigue_level > cfg.fatigue_threshold)
  let overrideTruthy := !(override_reason.getD "").isEmpty
  if should_block && overrideTruthy then
    let entry := mkAuditEntry "safety_override" now command fs.fatigue_level
      fs.fatigue_category fs.uptime_hours
      (if cfg.execution_mode = "live" then "executed" else "simulated")
      cfg.execution_mode override_reason user
    let s' := { s with auditEntries := logEvent s.auditEntries entry }
    (executeOrSimulate cfg command fs.fatigue_level fs.fatigue_category
      fs.uptime_hours override_reason shell, s')
  else if should_block then
    let entry := mkAuditEntry "command_blocked" now command fs.fatigue_level
      fs.fatigue_category fs.uptime_hours "blocked" cfg.execution_mode none user
    let s' := { s with auditEntries := logEvent s.auditEntries entry }
    (({ status := "BLOCKED"
        error := some "⛔ INTERLOCK ENGAGED"
        message := some (blockedExecMessage fs.fatigue_level fs.fatigue_category
          fs.uptime_hours command)
        fatigue := some (fs.fatigue_level, fs.fatigue_category, fs.uptime_hours)
        mode := cfg.execution_mode
        override_required := true }, false), s')
  else if dangerous then
    let entry := mkAuditEntry "dangerous_command_allowed" now command
      fs.fatigue_level fs.fatigue_category fs.uptime_hours
      (if cfg.execution_mode = "live" then "executed" else "simulated")
      cfg.execution_mode none user
    let s' := { s with auditEntries := logEvent s.auditEntries entry }
    (executeOrSimulate cfg command fs.fatigue_level fs.fatigue_category
      fs.uptime_hours none shell, s')
  else
    (executeOrSimulate cfg command fs.fatigue_level fs.fatigue_category
      fs.uptime_hours none shell, s)

/-- Which audit entries a single `execute_command` call appends, by branch:
exactly one `safety_override`, `command_blocked` or
`dangerous_command_allowed` entry, or none. -/
def executeCommandAuditEvents (cfg : HumsanaConfig) (s : DaemonState)
    (now current_stress : ℚ) (command : String)
    (override_reason : Option String) (user : String) : List AuditEntry :=
  let fs := getFatigueStatus s.heartbeats now current_stress
  let dangerous := isDangerousCommand cfg command
  let should_block := dangerous && decide (fs.fatigue_level > cfg.fatigue_threshold)
  let overrideTruthy := !(override_reason.getD "").isEmpty
  if should_block && overrideTruthy then
    [mkAuditEntry "safety_override" now command fs.fatigue_level
      fs.fatigue_category fs.uptime_hours
      (if cfg.execution_mode = "live" then "executed" else "simulated")
      cfg.execution_mode override_reason user]
  else if should_block then
    [mkAuditEntry "command_blocked" now command fs.fatigue_level
      fs.fatigue_category fs.uptime_hours "blocked" cfg.execution_mode none user]
  else if dangerous then
    [mkAuditEntry "dangerous_command_allowed" now command fs.fatigue_level
      fs.fatigue_category fs.uptime_hours
      (if cfg.execution_mode = "live" then "executed" else "simulated")
      cfg.execution_mode none user]
  else []

/-! ## Theorems settling the claims -/

/-- Claim C1: `check_command` returns a blocked result (allowed false, status
"blocked", override instruction populated) precisely when the command is
dangerous (case-insensitive substring match against the union of the
configured dangerous patterns and the deny patterns) and the current fatigue
level strictly exceeds the configured threshold; otherwise it returns an
allowed result with status "allowed". -/
theorem check_command_gating (cfg : HumsanaConfig) (s : DaemonState)
    (now current_stress : ℚ) (command : String) :
    (((checkCommandS cfg s now current_stress command).1.allowed = false ∧
      (checkCommandS cfg s now current_stress command).1.status = "blocked" ∧
      (checkCommandS cfg s now current_stress command).1.override_instruction.isSome = true) ↔
      (isDangerousCommand cfg command = true ∧
        getFatigueLevel s.heartbeats now current_stress > cfg.fatigue_threshold)) ∧
    (¬(isDangerousCommand cfg command = true ∧
        getFatigueLevel s.heartbeats now current_stress > cfg.fatigue_threshold) →
      ((checkCommandS cfg s now current_stress command).1.allowed = true ∧
       (checkCommandS cfg s now current_stress command).1.status = "allowed")) ∧
    (isDangerousCommand cfg command = true ↔
      ∃ p ∈ cfg.dangerous_commands ++ cfg.deny_patterns,
        strContains (pyLower command) (pyLower p) = true) := by
  have hproj : (getFatigueStatus s.heartbeats now current_stress).fatigue_level =
      getFatigueLevel s.heartbeats now current_stress := rfl
  refine ⟨?_, ?_, ?_⟩
  · by_cases hd : isDangerousCommand cfg command = true <;>
      by_cases hf : getFatigueLevel s.heartbeats now current_stress > cfg.fatigue_threshold <;>
      simp [checkCommandS, hd, hf, hproj]
  · intro hn
    rw [not_and_or] at hn
    rcases hn with hd | hf
    · simp at hd
      simp [checkCommandS, hd]
    · simp [checkCommandS, hproj, hf]
  · simp only [isDangerousCommand, matchesAnyPattern, Bool.or_eq_true, List.any_eq_true,
      List.mem_append]
    constructor
    · rintro (⟨p, hp, hc⟩ | ⟨p, hp, hc⟩)
      · exact ⟨p, Or.inl hp, hc⟩
      · exact ⟨p, Or.inr hp, hc⟩
    · rintro ⟨p, hp | hp, hc⟩
      · exact Or.inl ⟨p, hp, hc⟩
      · exact Or.inr ⟨p, hp, hc⟩

/-- Witness for C1: with the default configuration, an empty heartbeat log
and zero stress, a harmless command is allowed. -/
theorem check_command_gating_witness :
    (checkCommandS {} ⟨[], [], []⟩ 0 0 "echo hi").1.allowed = true ∧
    (checkCommandS {} ⟨[], [], []⟩ 0 0 "echo hi").1.status = "allowed" :=
  (check_command_gating {} ⟨[], [], []⟩ 0 0 "echo hi").2.1
    (by intro h; exact absurd h.1 (by decide))

/-- Claim C5: the fatigue formula is
`clamp(int(min(60, uptime/12*60) + stress*40), 0, 100)`, with the boundary
values 60 at (12h, 0.0), 40 at (0h, 1.0), and 100 at (12h, 1.0). -/
theorem fatigue_formula (uptime current_stress : ℚ) (hu : 0 ≤ uptime) :
    fatigueFromUptime uptime current_stress =
      max 0 (min 100 (pyInt (min 60 (uptime / 12 * 60) + current_stress * 40))) ∧
    fatigueFromUptime 12 0 = 60 ∧ fatigueFromUptime 0 1 = 40 ∧
    fatigueFromUptime 12 1 = 100 := by
  refine ⟨?_, ?_, ?_, ?_⟩
  · simp only [fatigueFromUptime]
    omega
  all_goals norm_num [fatigueFromUptime, pyInt]

/-- Witness for C5, at uptime 3h and stress one half. -/
theorem fatigue_formula_witness :
    fatigueFromUptime 3 (1 / 2) =
      max 0 (min 100 (pyInt (min 60 ((3 : ℚ) / 12 * 60) + (1 / 2 : ℚ) * 40))) :=
  (fatigue_formula 3 (1 / 2) (by norm_num)).1

/-- Claim C6: the state rules form an ordered decision list; a metric
combination satisfying both the ADRENALINE predicate (wpm above 90,
backspace ratio below 0.05, focus above 0.7) and the DEBUGGING predicate
(stress above 0.7, cognitive load above 0.6), with idle time at most 120
seconds, resolves to ADRENALINE. -/
theorem adrenaline_precedes_debugging
    (stress focus cognitive_load wpm backspaceRate idle_seconds : ℚ)
    (hw : wpm > 90) (hb : backspaceRate < 0.05) (hf : focus > 0.7)
    (hs : stress > 0.7) (hl : cognitive_load > 0.6) (hi : idle_seconds ≤ 120) :
    determineState stress focus cognitive_load wpm backspaceRate idle_seconds =
      UserState.ADRENALINE := by
  have hs' := hs
  have hl' := hl
  unfold determineState
  rw [if_neg (by linarith), if_pos ⟨hw, hb, hf⟩]

/-- Witness for C6: a concrete window satisfying both predicates. -/
theorem adrenaline_precedes_debugging_witness :
    determineState 0.8 0.8 0.7 100 0.01 0 = UserState.ADRENALINE :=
  adrenaline_precedes_debugging 0.8 0.8 0.7 100 0.01 0 (by norm_num) (by norm_num)
    (by norm_num) (by norm_num) (by norm_num) (by norm_num)

/-- Claim C7: with fewer than 10 signal events, `analyze` returns the fixed
default result — confidence 0.1 and state RELAXED — whatever the events
contain. -/
theorem analyze_default_below_ten (signals : List SignalSnapshot)
    (idle_seconds : ℚ) (h : signals.length < 10) :
    analyze signals idle_seconds = createDefaultResult 0.1 idle_seconds ∧
    (analyze signals idle_seconds).confidence = 0.1 ∧
    (analyze signals idle_seconds).state = UserState.RELAXED := by
  have he : analyze signals idle_seconds = createDefaultResult 0.1 idle_seconds := by
    simp [analyze, h]
  exact ⟨he, by rw [he]; rfl, by rw [he]; rfl⟩

/-- Witness for C7: the empty window. -/
theorem analyze_default_below_ten_witness :
    analyze [] 7 = createDefaultResult 0.1 7 ∧
    (analyze ([] : List SignalSnapshot) 7).confidence = 0.1 ∧
    (analyze ([] : List SignalSnapshot) 7).state = UserState.RELAXED :=
  analyze_default_below_ten [] 7 (by norm_num)

/-- Claim C8: the stress score is monotone non-decreasing in the backspace
ratio, with speed and variance held fixed. -/
theorem stress_monotone_in_backspace (wpm variance r₁ r₂ : ℚ) (h : r₁ ≤ r₂) :
    calcStress wpm r₁ variance ≤ calcStress wpm r₂ variance := by
  unfold calcStress
  refine min_le_min ?_ le_rfl
  have hbr : (if r₁ > 0.15 then (0.35 : ℚ) else if r₁ > 0.10 then 0.15 else 0) ≤
      (if r₂ > 0.15 then (0.35 : ℚ) else if r₂ > 0.10 then 0.15 else 0) := by
    split_ifs <;> linarith
  linarith

/-- Witness for C8, at ratios 0 and 0.2. -/
theorem stress_monotone_in_backspace_witness :
    calcStress 0 0 0 ≤ calcStress 0 0.2 0 :=
  stress_monotone_in_backspace 0 0 0 0.2 (by norm_num)

/-- Claim C9: after every persisted write the audit log holds at most
`MAX_ENTRIES = 1000` entries, and appending to a full log drops exactly the
oldest entry while preserving the rest in order. -/
theorem audit_ring_buffer :
    MAX_ENTRIES = 1000 ∧
    (∀ (entries : List AuditEntry) (e : AuditEntry),
      (logEvent entries e).length ≤ MAX_ENTRIES) ∧
    (∀ (entries : List AuditEntry) (e : AuditEntry),
      entries.length = MAX_ENTRIES →
      logEvent entries e = entries.drop 1 ++ [e]) := by
  refine ⟨rfl, ?_, ?_⟩
  · intro entries e
    simp only [logEvent, auditSave, MAX_ENTRIES]
    split_ifs with h
    · simp only [List.length_drop, List.length_append] at *
      omega
    · simp only [List.length_append] at h ⊢
      omega
  · intro entries e h
    have h1000 : entries.length = 1000 := by simpa [MAX_ENTRIES] using h
    have hlen : (entries ++ [e]).length = 1001 := by simp [h1000]
    simp only [logEvent, auditSave, hlen, MAX_ENTRIES]
    rw [if_pos (by norm_num)]
    have h1 : (1001 - 1000 : ℕ) = 1 := by norm_num
    rw [h1, List.drop_append_of_le_length (by omega)]

/-- A concrete audit entry used by the C9 witness. -/
def sampleAuditEntry : AuditEntry :=
  { event := "command_blocked"
    timestamp := 0
    command := "rm -rf /tmp/x"
    fatigue_level := 90
    fatigue_category := "critical"
    uptime_hours := 13
    override_reason := none
    user := "alice"
    outcome := "blocked"
    mode := "dry_run" }

/-- Witness for C9: logging into a full 1000-entry log evicts the head. -/
theorem audit_ring_buffer_witness :
    logEvent (List.replicate 1000 sampleAuditEntry) sampleAuditEntry =
      (List.replicate 1000 sampleAuditEntry).drop 1 ++ [sampleAuditEntry] :=
  audit_ring_buffer.2.2 (List.replicate 1000 sampleAuditEntry) sampleAuditEntry
    (by simp [MAX_ENTRIES])

/-- The fatigue status of a 12-hour uninterrupted session at full stress
(used in concrete interlock scenarios). -/
def criticalFatigueStatus : FatigueStatus :=
  { fatigue_level := 100
    fatigue_category := "critical"
    uptime_hours := 12
    recommendation := "Critical fatigue. You should stop working and rest."
    break_threshold_minutes := 60 }

/-- Claim C2 as stated is false on the code: in live mode with an
`allow_patterns` allowlist the command does not match, `execute_command`
with a valid override reason still returns a BLOCKED result ("Command not in
allowlist"). Concretely: 12h uptime, stress 1 (fatigue 100 above threshold
70), dangerous command `rm -rf /tmp/x`, override reason "prod fire",
allowlist `["git"]`. -/
theorem execute_override_blocked_by_allowlist :
    ((executeCommandS { execution_mode := "live", allow_patterns := ["git"], is_pro := true }
        ⟨[0], [], []⟩ 43200 1 "rm -rf /tmp/x" (some "prod fire")
        (.completed 0 "" "") "alice").1.1.status = "BLOCKED") := by
  have hfs : getFatigueStatus [0] 43200 1 = criticalFatigueStatus := by
    norm_num [getFatigueStatus, getFatigueLevel, getCognitiveUptimeHours, sortTimes,
      lastBreakRev, List.insertionSort, List.orderedInsert, fatigueFromUptime, pyInt,
      pyRound, roundHalfEven, fatigueCategory, criticalFatigueStatus]
  have hd : isDangerousCommand
      { execution_mode := "live", allow_patterns := ["git"], is_pro := true }
      "rm -rf /tmp/x" = true := by decide
  have hm : matchesAnyPattern "rm -rf /tmp/x" ["git"] = false := by decide
  simp only [executeCommandS, executeOrSimulate, hfs, hd, hm, criticalFatigueStatus]
  split <;> rfl

/-- Claim C2, amended: for a command that would be blocked, `execute_command`
with a non-empty override reason always logs a `safety_override` audit entry
carrying that reason; in dry_run mode the result is SIMULATED; in live mode
it is BLOCKED exactly when a non-empty `allow_patterns` list is configured
and the command matches none of its entries, and otherwise EXECUTED, TIMEOUT
or ERROR according to the subprocess outcome — never BLOCKED. -/
theorem execute_with_override (cfg : HumsanaConfig) (s : DaemonState)
    (now current_stress : ℚ) (command reason : String) (shell : ShellResult)
    (user : String) (hr : reason ≠ "")
    (hd : isDangerousCommand cfg command = true)
    (hf : getFatigueLevel s.heartbeats now current_stress > cfg.fatigue_threshold) :
    (∃ entry : AuditEntry, entry.event = "safety_override" ∧
        entry.override_reason = some reason ∧
        (executeCommandS cfg s now current_stress command (some reason) shell user).2.auditEntries
          = logEvent s.auditEntries entry) ∧
    (cfg.execution_mode = "dry_run" →
      (executeCommandS cfg s now current_stress command (some reason) shell user).1.1.status
        = "SIMULATED") ∧
    (cfg.execution_mode ≠ "dry_run" →
      ((executeCommandS cfg s now current_stress command (some reason) shell user).1.1.status
          = "BLOCKED" ↔
        (cfg.allow_patterns ≠ [] ∧ matchesAnyPattern command cfg.allow_patterns = false))) ∧
    (cfg.execution_mode ≠ "dry_run" →
      ¬(cfg.allow_patterns ≠ [] ∧ matchesAnyPattern command cfg.allow_patterns = false) →
      (executeCommandS cfg s now current_stress command (some reason) shell user).1.1.status =
        (match shell with
         | .completed _ _ _ => "EXECUTED"
         | .timedOut => "TIMEOUT"
         | .failed _ => "ERROR")) := by
  set fs := getFatigueStatus s.heartbeats now current_stress with hfs
  have hempty : reason.isEmpty = false := by
    cases h : reason.isEmpty
    · rfl
    · exact absurd ((String.isEmpty_iff reason).mp h) hr
  have hsb : (isDangerousCommand cfg command &&
      decide (fs.fatigue_level > cfg.fatigue_threshold)) = true := by
    simp [hd, hf, hfs]
    exact hf
  have h1 : (executeCommandS cfg s now current_stress command (some reason) shell user).1 =
      executeOrSimulate cfg command fs.fatigue_level fs.fatigue_category fs.uptime_hours
        (some reason) shell := by
    simp only [executeCommandS, ← hfs, hsb, hempty, Option.getD_some, Bool.not_false,
      Bool.and_true, if_pos]
  have h2 : (executeCommandS cfg s now current_stress command (some reason) shell user).2.auditEntries =
      logEvent s.auditEntries (mkAuditEntry "safety_override" now command fs.fatigue_level
        fs.fatigue_category fs.uptime_hours
        (if cfg.execution_mode = "live" then "executed" else "simulated")
        cfg.execution_mode (some reason) user) := by
    simp only [executeCommandS, ← hfs, hsb, hempty, Option.getD_some, Bool.not_false,
      Bool.and_true, if_pos]
  refine ⟨⟨_, rfl, rfl, h2⟩, ?_, ?_, ?_⟩
  · intro hmode
    rw [h1]
    simp [executeOrSimulate, hmode]
  · intro hmode
    rw [h1]
    by_cases hallow : cfg.allow_patterns ≠ [] ∧ matchesAnyPattern command cfg.allow_patterns = false
    · simp [executeOrSimulate, hmode, hallow]
    · cases shell <;> simp [executeOrSimulate, hmode, hallow]
  · intro hmode hallow
    rw [h1]
    cases shell <;> simp [executeOrSimulate, hmode, hallow]

/-- Witness for the amended C2: the spec's end-to-end scenario in the default
dry_run configuration yields a SIMULATED result. -/
theorem execute_with_override_witness :
    (executeCommandS {} ⟨[0], [], []⟩ 43200 1 "rm -rf /tmp/x" (some "prod fire")
      (.completed 0 "" "") "alice").1.1.status = "SIMULATED" :=
  (execute_with_override {} ⟨[0], [], []⟩ 43200 1 "rm -rf /tmp/x" "prod fire"
    (.completed 0 "" "") "alice" (by decide) (by decide)
    (by norm_num [getFatigueLevel, getCognitiveUptimeHours, sortTimes, lastBreakRev,
      List.insertionSort, List.orderedInsert, fatigueFromUptime, pyInt])).2.1 rfl

/-- The fatigue status of a fresh session (used to evaluate the C3 failing
input). -/
def freshFatigueStatus : FatigueStatus :=
  { fatigue_level := 0
    fatigue_category := "low"
    uptime_hours := 0
    recommendation := "You are fresh. Good time for complex work."
    break_threshold_minutes := 60 }

/-- Claim C3 fails on the code: with `execution_mode = "live"` and no valid
Pro license, `effective_execution_mode` is "dry_run", yet the interlock's
execution path (which reads `config.execution_mode` and never consults
`effective_execution_mode`) still reaches `subprocess.run` and returns an
EXECUTED result for a command passing the gating check — it is not
downgraded to simulation. -/
theorem live_mode_ignores_license :
    effectiveExecutionMode { execution_mode := "live", is_pro := false } = "dry_run" ∧
    ((executeCommandS { execution_mode := "live", is_pro := false } ⟨[], [], []⟩ 0 0
        "ls -la" none (.completed 0 "total 0" "") "alice").1.1.status = "EXECUTED" ∧
      (executeCommandS { execution_mode := "live", is_pro := false } ⟨[], [], []⟩ 0 0
        "ls -la" none (.completed 0 "total 0" "") "alice").1.2 = true) := by
  refine ⟨by norm_num [effectiveExecutionMode], ?_, ?_⟩ <;>
  · have hd : isDangerousCommand { execution_mode := "live", is_pro := false }
        "ls -la" = false := by decide
    have hfs : getFatigueStatus ([] : List ℚ) 0 0 = freshFatigueStatus := by
      norm_num [getFatigueStatus, getFatigueLevel, getCognitiveUptimeHours, fatigueFromUptime,
        pyInt, pyRound, roundHalfEven, fatigueCategory, freshFatigueStatus]
    simp [executeCommandS, executeOrSimulate, hd, hfs, freshFatigueStatus]

/-- Characterisation of the scan in `get_cognitive_uptime_hours`: on any
list (thought of as the sorted heartbeats reversed, most recent first) the
scan returns the later heartbeat of the first adjacent pair whose gap is at
least 60 minutes, and finds no break exactly when no adjacent pair has such
a gap. -/
theorem lastBreakRev_spec (t : List ℚ) :
    (lastBreakRev t = none ∧
      ∀ j, j + 1 < t.length → ¬((t.getD j 0 - t.getD (j + 1) 0) / 60 ≥ 60)) ∨
    (∃ j, j + 1 < t.length ∧ ((t.getD j 0 - t.getD (j + 1) 0) / 60 ≥ 60) ∧
      (∀ k, k < j → ¬((t.getD k 0 - t.getD (k + 1) 0) / 60 ≥ 60)) ∧
      lastBreakRev t = some (t.getD j 0)) := by
  induction t with
  | nil =>
    left
    exact ⟨rfl, by intro j hj; simp at hj⟩
  | cons a t ih =>
    cases t with
    | nil =>
      left
      refine ⟨rfl, ?_⟩
      intro j hj
      simp at hj
    | cons b rest =>
      by_cases hg : ((a - b) / 60 ≥ 60)
      · right
        refine ⟨0, ?_, ?_, ?_, ?_⟩
        · simp
        · simpa using hg
        · intro k hk
          omega
        · simp [lastBreakRev, hg]
      · rcases ih with ⟨hnone, hno⟩ | ⟨j, hjlen, hgap, hmin, heq⟩
        · left
          refine ⟨?_, ?_⟩
          · simp [lastBreakRev, hg, hnone]
          · intro j hj
            cases j with
            | zero => simpa using hg
            | succ j' =>
              have := hno j' (by simpa using hj)
              simpa using this
        · right
          refine ⟨j + 1, by simpa using hjlen, by simpa using hgap, ?_, ?_⟩
          · intro k hk
            cases k with
            | zero => simpa using hg
            | succ k' =>
              intro hcon
              exact hmin k' (by omega) (by simpa using hcon)
          · simpa [lastBreakRev, hg] using heq

/-- Claim C4: on a non-empty heartbeat log the uptime is
`max 0 ((now - epoch) / 3600)`, where the epoch is the heartbeat right after
the most recent gap of at least 60 minutes in the timestamp-sorted sequence
(scanned most recent to oldest), or the earliest retained heartbeat (the
head of the sorted sequence) when no such gap exists; and at heartbeats
t = 0, 1, 2, 3 minutes followed by t = 70 minutes, the uptime at t = 70 is 0. -/
theorem uptime_break_detection (h₀ : ℚ) (rest : List ℚ) (now : ℚ) :
    (∃ e, getCognitiveUptimeHours (h₀ :: rest) now = max 0 ((now - e) / 3600) ∧
      (List.Sorted (· ≤ ·) (sortTimes (h₀ :: rest)) ∧
        (sortTimes (h₀ :: rest)).Perm (h₀ :: rest)) ∧
      (let t := (sortTimes (h₀ :: rest)).reverse
       (∃ j, j + 1 < t.length ∧ ((t.getD j 0 - t.getD (j + 1) 0) / 60 ≥ 60) ∧
          (∀ k, k < j → ¬((t.getD k 0 - t.getD (k + 1) 0) / 60 ≥ 60)) ∧
          e = t.getD j 0) ∨
        ((∀ j, j + 1 < t.length → ¬((t.getD j 0 - t.getD (j + 1) 0) / 60 ≥ 60)) ∧
          e = (sortTimes (h₀ :: rest)).headI))) ∧
    getCognitiveUptimeHours [0, 60, 120, 180, 4200] 4200 = 0 := by
  constructor
  · have hsorted : List.Sorted (· ≤ ·) (sortTimes (h₀ :: rest)) :=
      List.sorted_insertionSort _ _
    have hperm : (sortTimes (h₀ :: rest)).Perm (h₀ :: rest) :=
      List.perm_insertionSort _ _
    rcases lastBreakRev_spec (sortTimes (h₀ :: rest)).reverse with
      ⟨hnone, hno⟩ | ⟨j, hjlen, hgap, hmin, heq⟩
    · refine ⟨(sortTimes (h₀ :: rest)).headI, ?_, ⟨hsorted, hperm⟩, Or.inr ⟨hno, rfl⟩⟩
      simp [getCognitiveUptimeHours, hnone]
    · refine ⟨(sortTimes (h₀ :: rest)).reverse.getD j 0, ?_, ⟨hsorted, hperm⟩,
        Or.inl ⟨j, hjlen, hgap, hmin, rfl⟩⟩
      simp [getCognitiveUptimeHours, heq]
  · norm_num [getCognitiveUptimeHours, sortTimes, lastBreakRev, List.insertionSort,
      List.orderedInsert]

/-- Claim C10: `check_command` is a read-only query — it returns the daemon
state (heartbeat log, audit entries, analysis history) unchanged — while the
block / override / dangerous-allow audit events are written by
`execute_command`, which touches nothing but the audit entry list and
appends exactly the per-branch events of `executeCommandAuditEvents`. -/
theorem check_command_readonly (cfg : HumsanaConfig) (s : DaemonState)
    (now current_stress : ℚ) (command : String)
    (override_reason : Option String) (shell : ShellResult) (user : String) :
    (checkCommandS cfg s now current_stress command).2 = s ∧
    ((executeCommandS cfg s now current_stress command override_reason shell user).2.heartbeats
        = s.heartbeats ∧
      (executeCommandS cfg s now current_stress command override_reason shell user).2.history
        = s.history ∧
      (executeCommandS cfg s now current_stress command override_reason shell user).2.auditEntries
        = (executeCommandAuditEvents cfg s now current_stress command override_reason user).foldl
            logEvent s.auditEntries) := by
  constructor
  · simp only [checkCommandS]
    split <;> rfl
  · simp only [executeCommandS, executeCommandAuditEvents]
    split_ifs <;> simp

end Humsana
